import Mathlib

/-!
Verification of the drone-automation flight-safety core.

The definitions below are a shallow embedding of the Python source:
`safety_config.py` (thresholds), `controller.py` (readiness gate,
maneuver decisions, battery-emergency protocol), `command_handlers.py`
(command-conflict ledger), `autonomous_waypoint_mission.py` (waypoint
pipeline and haversine), and
`src/navigation/navigation_utils.py` / `src/navigation/waypoint_manager.py`
(guarded haversine, waypoint-manager emergency prompt).

Telemetry values that the Python code compares numerically are modelled
as exact rationals; geodesic computation (which uses trigonometry) is
modelled over the reals.  Missing telemetry attributes (`getattr` probes
returning `None` / absent) are modelled as `Option` fields.
-/

namespace Drone

/-! ## Safety configuration (safety_config.py `SafetyConfig`) -/

def MAX_ALTITUDE : ℚ := 30
def MIN_ALTITUDE : ℚ := 1/2
def MIN_BATTERY_VOLTAGE_3S : ℚ := 111/10
def MIN_BATTERY_VOLTAGE_4S : ℚ := 148/10
def MIN_BATTERY_VOLTAGE_6S : ℚ := 222/10
def MIN_BATTERY_LEVEL : ℚ := 30
def MIN_GPS_FIX : ℕ := 3
def MIN_GPS_SATELLITES : ℕ := 6
def MAX_HEARTBEAT_AGE : ℚ := 5
def COMMAND_TIMEOUT : ℚ := 30

/-! ## Vehicle snapshot (the dronekit vehicle object as probed by controller.py) -/

structure Gps where
  fix_type : Option ℕ
  satellites_visible : Option ℕ
deriving Repr, DecidableEq

structure Battery where
  level : Option ℚ
  voltage : Option ℚ
deriving Repr, DecidableEq

structure HomeLocation where
  lat : ℚ
  lon : ℚ
deriving Repr, DecidableEq

structure Vehicle where
  last_heartbeat : Option ℚ
  is_armable : Bool
  gps_0 : Option Gps
  battery : Option Battery
  /-- `none` models a vehicle object without a `system_status` attribute;
  `some s` models `vehicle.system_status.state = s` (with the `'UNKNOWN'`
  default already resolved). -/
  system_status : Option String
  home_location : Option HomeLocation
  armed : Bool
  /-- `vehicle.location.global_relative_frame.alt`, with the source's
  `getattr(..., "alt", 0)`-style default of 0 already resolved. -/
  alt : ℚ
deriving Repr, DecidableEq

structure Connection where
  is_connected : Bool
  vehicle : Option Vehicle
deriving Repr, DecidableEq

/-! ## Readiness gate (controller.py `Controller._vehicle_ready`) -/

/-- controller.py `Controller._get_min_battery_voltage`. -/
def get_min_battery_voltage (current_voltage : ℚ) : ℚ :=
  if current_voltage > 20 then MIN_BATTERY_VOLTAGE_6S
  else if current_voltage > 13 then MIN_BATTERY_VOLTAGE_4S
  else MIN_BATTERY_VOLTAGE_3S

/-- The heartbeat-staleness failure condition of `_vehicle_ready`:
`last_heartbeat is not None and last_heartbeat > MAX_HEARTBEAT_AGE`. -/
def heartbeat_stale (v : Vehicle) : Bool :=
  match v.last_heartbeat with
  | some h => decide (h > MAX_HEARTBEAT_AGE)
  | none => false

/-- The GPS failure condition of `_vehicle_ready` for a present `gps_0`
object (the `or 0` fallback of the source is `Option.getD 0` here). -/
def gps_check_fails (require_armable : Bool) (g : Gps) : Bool :=
  let fix := g.fix_type.getD 0
  let sats := g.satellites_visible.getD 0
  if require_armable && decide (fix < MIN_GPS_FIX) then true
  else if decide (fix < 2) then true
  else if require_armable && decide (sats < MIN_GPS_SATELLITES) then true
  else false

/-- The battery failure condition of `_vehicle_ready` for a present
battery object (level check, then voltage against the per-cell-count
minimum). -/
def battery_check_fails (b : Battery) : Bool :=
  (match b.level with
   | some l => decide (l < MIN_BATTERY_LEVEL)
   | none => false) ||
  (match b.voltage with
   | some vv => decide (vv < get_min_battery_voltage vv)
   | none => false)

/-- The system-status failure condition of `_vehicle_ready`:
only checked when `require_armable`, passes when the attribute is absent,
and requires the state to be STANDBY or ACTIVE otherwise. -/
def system_status_fails (require_armable : Bool) (v : Vehicle) : Bool :=
  require_armable &&
    (match v.system_status with
     | some s => decide (s ≠ "STANDBY" ∧ s ≠ "ACTIVE")
     | none => false)

/-- controller.py `Controller._vehicle_ready`, with the same check order
and early returns as the source. -/
def vehicle_ready (conn : Connection) (require_armable emergency_override : Bool) : Bool :=
  if !conn.is_connected then false
  else match conn.vehicle with
  | none => false
  | some v =>
    if heartbeat_stale v then false
    else if require_armable && !v.is_armable then false
    else if (match v.gps_0 with
             | some g => gps_check_fails require_armable g
             | none => false) then false
    else if !emergency_override &&
            (match v.battery with
             | some b => battery_check_fails b
             | none => false) then false
    else if system_status_fails require_armable v then false
    else true

/-- The flat conjunction of the individual readiness checks, with the
battery check suppressed exactly when `emergency_override` is set. -/
def ready_checks (conn : Connection) (require_armable emergency_override : Bool) : Bool :=
  conn.is_connected &&
  (match conn.vehicle with
   | none => false
   | some v =>
     !heartbeat_stale v &&
     (!require_armable || v.is_armable) &&
     !(match v.gps_0 with
       | some g => gps_check_fails require_armable g
       | none => false) &&
     (emergency_override ||
      !(match v.battery with
        | some b => battery_check_fails b
        | none => false)) &&
     !system_status_fails require_armable v)

/-- Replacing the battery object by an absent one, which makes both
battery checks pass vacuously. -/
def erase_battery (conn : Connection) : Connection :=
  { conn with vehicle := conn.vehicle.map (fun v => { v with battery := none }) }

/-! ## Flight command ledger (command_handlers.py) -/

/-- The two module-level dictionaries of command_handlers.py:
`_active_commands` (keys only; values are always `True`) and
`_last_command_time` (command → start time). -/
structure Ledger where
  active : List String
  lastTime : List (String × ℚ)
deriving Repr, DecidableEq

def flight_commands : List String := ["takeoff", "land", "rtl", "fly_timed"]

def critical_commands : List String := ["emergency_disarm", "emergency_land"]

/-- The "clean up old commands" pass at the top of
`check_command_conflicts`: entries of `_last_command_time` older than
`COMMAND_TIMEOUT` are popped from both dictionaries. -/
def prune_expired (now : ℚ) (l : Ledger) : Ledger :=
  let expired := (l.lastTime.filter (fun p => decide (now - p.2 > COMMAND_TIMEOUT))).map Prod.fst
  { active := l.active.filter (fun c => !expired.contains c),
    lastTime := l.lastTime.filter (fun p => !decide (now - p.2 > COMMAND_TIMEOUT)) }

/-- command_handlers.py `check_command_conflicts`, returning the (ok,
message) pair of the source together with the mutated ledger. -/
def check_command_conflicts (command_type : String) (now : ℚ) (l : Ledger) :
    Bool × String × Ledger :=
  let l1 := prune_expired now l
  let active_flight := l1.active.filter (fun c => flight_commands.contains c)
  if flight_commands.contains command_type && !active_flight.isEmpty then
    (false, "Flight command conflict: " ++ active_flight.headD "" ++ " already active", l1)
  else if critical_commands.contains command_type then
    (true, "No conflicts", { l1 with active := [] })
  else
    (true, "No conflicts", l1)

/-- The conflict-rejection step of command_handlers.py `execute_command`:
a command whose conflict check fails is answered with an error result and
no handler runs; otherwise the command is tracked and executed. -/
def execute_command_accepts (command_type : String) (now : ℚ) (l : Ledger) : Bool :=
  (check_command_conflicts command_type now l).1

/-! ## Maneuver decisions (controller.py `rtl`, `emergency_land`,
`emergency_disarm`) -/

/-- The invalid-home test used by both `rtl` and `emergency_land`:
`not home or (home.lat == 0.0 and home.lon == 0.0)`. -/
def home_invalid (h : Option HomeLocation) : Bool :=
  match h with
  | none => true
  | some hp => decide (hp.lat = 0) && decide (hp.lon = 0)

inductive RtlStep where
  /-- `_vehicle_ready` failed: `rtl` returns False without commanding. -/
  | notReady
  /-- invalid home: `rtl` substitutes `emergency_land`. -/
  | substituteEmergencyLand
  /-- valid home: `rtl` sets RTL mode and polls. -/
  | issueRtl
deriving Repr, DecidableEq

/-- The decision prefix of controller.py `Controller.rtl`: readiness
gate, then home validation, then the RTL mode command. -/
def rtl_decision (conn : Connection) (emergency_override : Bool) : RtlStep :=
  if !vehicle_ready conn false emergency_override then .notReady
  else match conn.vehicle with
  | none => .notReady
  | some v =>
    if home_invalid v.home_location then .substituteEmergencyLand
    else .issueRtl

inductive EmergencyLandStep where
  /-- not connected: returns False. -/
  | notConnected
  /-- valid home: prefers RTL with emergency override. -/
  | attemptRtl
  /-- invalid home: `land(force_land_here=True, emergency_override=True)`. -/
  | forcedLandHere
deriving Repr, DecidableEq

/-- The decision prefix of controller.py `Controller.emergency_land`. -/
def emergency_land_decision (conn : Connection) : EmergencyLandStep :=
  if !conn.is_connected then .notConnected
  else match conn.vehicle with
  | none => .notConnected
  | some v =>
    if home_invalid v.home_location then .forcedLandHere
    else .attemptRtl

inductive EDOutcome where
  /-- `raise Exception("Emergency disarm requires explicit confirmation")`. -/
  | raisedConfirmationError
  /-- not connected: returns False. -/
  | failNotConnected
  /-- vehicle not armed: returns True. -/
  | alreadyDisarmed
  /-- altitude above 2 m: substitutes `emergency_land`. -/
  | doEmergencyLand
  /-- at or below 2 m: throttle to 0, disarm, wait with the given
  shortened timeout. -/
  | throttleCutDisarm (timeout : ℚ)
deriving Repr, DecidableEq

/-- The decision structure of controller.py `Controller.emergency_disarm`. -/
def emergency_disarm_decision (confirm_emergency : Bool) (conn : Connection) : EDOutcome :=
  if !confirm_emergency then .raisedConfirmationError
  else if !conn.is_connected then .failNotConnected
  else match conn.vehicle with
  | none => .failNotConnected
  | some v =>
    if !v.armed then .alreadyDisarmed
    else if decide (v.alt > 2) then .doEmergencyLand
    else .throttleCutDisarm 8

/-- True for the outcomes that the source reports by returning a value;
false for the outcome raised as an exception. -/
def ed_is_result_outcome : EDOutcome → Bool
  | .raisedConfirmationError => false
  | _ => true

/-- command_handlers.py `handle_emergency_disarm`: calls
`emergency_disarm(confirm_emergency=True)` inside try/except, converts
the boolean (or any exception) into an ok/error status string.  The two
booleans stand for the success of the nested emergency-land and
disarm-confirmation waits. -/
def handle_emergency_disarm_status (conn : Connection) (landOk disarmOk : Bool) : String :=
  match emergency_disarm_decision true conn with
  | .raisedConfirmationError => "error"
  | .failNotConnected => "error"
  | .alreadyDisarmed => "ok"
  | .doEmergencyLand => if landOk then "ok" else "error"
  | .throttleCutDisarm _ => if disarmOk then "ok" else "error"

/-! ## Battery-emergency prompt resolution
(controller.py `handle_battery_emergency`,
waypoint_manager.py `_prompt_battery_emergency_choice`) -/

/-- config/config.py `WaypointConfig.EMERGENCY_BATTERY_LEVEL`. -/
def EMERGENCY_BATTERY_LEVEL : ℚ := 20

/-- The outcome selection at the end of controller.py
`Controller.handle_battery_emergency`.  `user_choice` is the response
recorded before the 10-second deadline (`none` when the poll loop ran
out); the booleans are the success of the commanded maneuver. -/
def controller_emergency_outcome (user_choice : Option String) (landOk rtlOk : Bool) : String :=
  if user_choice = some "LAND" then (if landOk then "land" else "land_failed")
  else if user_choice = some "RTL" then (if rtlOk then "rtl" else "rtl_failed")
  else (if rtlOk then "timeout_rtl" else "timeout_rtl_failed")

/-- The timeout default of waypoint_manager.py
`_prompt_battery_emergency_choice`:
`"RTL" if battery_level > WaypointConfig.EMERGENCY_BATTERY_LEVEL else "LAND"`. -/
def wm_timeout_default (battery_level : ℚ) : String :=
  if battery_level > EMERGENCY_BATTERY_LEVEL then "RTL" else "LAND"

/-- Resolution of a waypoint-manager emergency prompt: the returned
action string, paired with whether the prompt entry was deleted from the
tracking table (the source deletes it in both the response branch and
the timeout branch). -/
def wm_prompt_resolve (battery_level : ℚ) (response : Option String) : String × Bool :=
  match response with
  | some choice => (choice.toUpper, true)
  | none => (wm_timeout_default battery_level, true)

/-! ## Bounded wait (controller.py `Controller._wait_for_condition`) -/

/-- One poll sequence of `_wait_for_condition`: `check n` is the value
of `check_fn()` at the n-th poll, and in this time model the elapsed
time at poll `n` is `n * interval`.  The fuel argument dominates the
number of polls the source can perform before its deadline test fires;
`wait_for_condition` supplies enough of it. -/
def waitIter (check : ℕ → Bool) (timeout interval : ℚ) : ℕ → ℕ → Bool
  | 0, _ => false
  | fuel + 1, n =>
    if check n then true
    else if decide (timeout < n * interval) then false
    else waitIter check timeout interval fuel (n + 1)

/-- controller.py `Controller._wait_for_condition`: poll `check` every
`interval` seconds until it holds or more than `timeout` seconds have
elapsed; deadline expiry returns False. -/
def wait_for_condition (check : ℕ → Bool) (timeout interval : ℚ) : Bool :=
  waitIter check timeout interval ((⌈timeout / interval⌉).toNat + 2) 0

/-! ## Geodesy (autonomous_waypoint_mission.py `calculate_distance`,
src/navigation/navigation_utils.py `NavigationUtils.calculate_distance`) -/

noncomputable section

open Real

def EARTH_RADIUS_M : ℝ := 6371000

def MAX_REALISTIC_DISTANCE : ℝ := 20003931

/-- math.radians. -/
def radians (d : ℝ) : ℝ := d * (Real.pi / 180)

/-- math.atan2 in its principal-value definition (CPython semantics on
finite inputs, with `atan2 0 0 = 0`). -/
def atan2 (y x : ℝ) : ℝ :=
  if 0 < x then Real.arctan (y / x)
  else if x < 0 then
    (if 0 ≤ y then Real.arctan (y / x) + Real.pi else Real.arctan (y / x) - Real.pi)
  else
    (if 0 < y then Real.pi / 2 else if y < 0 then -(Real.pi / 2) else 0)

/-- The intermediate `a` of the haversine formula, shared by both source
implementations. -/
def haversine_a (lat1 lon1 lat2 lon2 : ℝ) : ℝ :=
  Real.sin (radians (lat2 - lat1) / 2) ^ 2 +
    Real.cos (radians lat1) * Real.cos (radians lat2) *
      Real.sin (radians (lon2 - lon1) / 2) ^ 2

/-- autonomous_waypoint_mission.py
`AutonomousWaypointMission.calculate_distance` (unguarded haversine on
(lat, lon, alt) triples; altitude is ignored). -/
def awm_calculate_distance (wp1 wp2 : ℝ × ℝ × ℝ) : ℝ :=
  let a := haversine_a wp1.1 wp1.2.1 wp2.1 wp2.2.1
  let c := 2 * atan2 (Real.sqrt a) (Real.sqrt (1 - a))
  EARTH_RADIUS_M * c

/-- navigation_utils.py `NavigationUtils.validate_coordinates` (the
range test; type-conversion failures are outside this model). -/
def valid_coordinates (lat lon : ℝ) : Prop :=
  -90 ≤ lat ∧ lat ≤ 90 ∧ -180 ≤ lon ∧ lon ≤ 180

open scoped Classical in
/-- navigation_utils.py `NavigationUtils.calculate_distance`.  The
source returns `float('inf')` on invalid input or an implausible result;
that value is modelled as `none`. -/
def nav_calculate_distance (wp1 wp2 : ℝ × ℝ) : Option ℝ :=
  if ¬valid_coordinates wp1.1 wp1.2 ∨ ¬valid_coordinates wp2.1 wp2.2 then none
  else if wp1.1 = wp2.1 ∧ wp1.2 = wp2.2 then some 0
  else
    let a0 := haversine_a wp1.1 wp1.2 wp2.1 wp2.2
    let a := if 1 < a0 then 1 else a0
    let c := 2 * atan2 (Real.sqrt a) (Real.sqrt (1 - a))
    let d := EARTH_RADIUS_M * c
    if d < 0 ∨ MAX_REALISTIC_DISTANCE < d then none
    else some d

/-! ## Waypoint processing pipeline (autonomous_waypoint_mission.py
`AutonomousWaypointMission.validate_and_process_waypoints`) -/

def default_altitude : ℝ := 20

def min_waypoint_distance : ℝ := 2

def MIN_ALTITUDE_R : ℝ := 1/2

def MAX_ALTITUDE_R : ℝ := 30

/-- The altitude phase of `validate_and_process_waypoints`: default
assignment for missing/non-positive altitude, then clamping to the
configured [min, max] range. -/
def assign_altitude (alt : Option ℝ) : ℝ :=
  let a0 := match alt with
            | none => default_altitude
            | some a => if a ≤ 0 then default_altitude else a
  if a0 < MIN_ALTITUDE_R then MIN_ALTITUDE_R
  else if MAX_ALTITUDE_R < a0 then MAX_ALTITUDE_R
  else a0

/-- One iteration of the per-waypoint loop: altitude defaulting and
clamping, then the coordinate range check (`continue` on failure is
`none` here). -/
def process_one (w : ℝ × ℝ × Option ℝ) : Option (ℝ × ℝ × ℝ) :=
  if (-90 ≤ w.1 ∧ w.1 ≤ 90) ∧ (-180 ≤ w.2.1 ∧ w.2.1 ≤ 180) then
    some (w.1, w.2.1, assign_altitude w.2.2)
  else none

/-- The per-waypoint validation pass over the whole input list. -/
def process_waypoints (ws : List (ℝ × ℝ × Option ℝ)) : List (ℝ × ℝ × ℝ) :=
  ws.filterMap process_one

/-- The inner loop of the merge pass: each remaining waypoint is dropped
when it is closer than `min_waypoint_distance` to the last kept one, and
otherwise kept (becoming the new comparison point). -/
def merge_loop (last : ℝ × ℝ × ℝ) : List (ℝ × ℝ × ℝ) → List (ℝ × ℝ × ℝ)
  | [] => []
  | w :: ws =>
    if awm_calculate_distance last w < min_waypoint_distance then merge_loop last ws
    else w :: merge_loop w ws

/-- The merge pass of `validate_and_process_waypoints` (a no-op on lists
with fewer than two waypoints, as in the source). -/
def merge_waypoints : List (ℝ × ℝ × ℝ) → List (ℝ × ℝ × ℝ)
  | [] => []
  | w :: ws => w :: merge_loop w ws

/-- autonomous_waypoint_mission.py
`AutonomousWaypointMission.validate_and_process_waypoints`. -/
def validate_and_process_waypoints (ws : List (ℝ × ℝ × Option ℝ)) : List (ℝ × ℝ × ℝ) :=
  merge_waypoints (process_waypoints ws)

end

/-! ## Theorems -/

/-- The readiness gate, written with early returns in the source, equals
the flat conjunction of its individual checks. -/
theorem vehicle_ready_eq_ready_checks (conn : Connection) (ra eo : Bool) :
    vehicle_ready conn ra eo = ready_checks conn ra eo := by
  rcases conn with ⟨ic, vo⟩
  cases vo with
  | none => cases ic <;> rfl
  | some v =>
    rcases v with ⟨hb, armable, gps, batt, sys, home, armed, alt⟩
    simp only [vehicle_ready, ready_checks, heartbeat_stale, system_status_fails]
    cases ic <;> cases ra <;> cases eo <;> cases armable <;>
      cases hb <;> cases gps <;> cases batt <;> cases sys <;>
      simp [Bool.and_assoc]

/-- A stale heartbeat fails the gate for every flag combination. -/
theorem vehicle_ready_false_of_stale (conn : Connection) (ra eo : Bool)
    (v : Vehicle) (h : ℚ) (hv : conn.vehicle = some v)
    (hhb : v.last_heartbeat = some h) (hgt : MAX_HEARTBEAT_AGE < h) :
    vehicle_ready conn ra eo = false := by
  rcases conn with ⟨ic, vo⟩
  cases vo with
  | none => cases hv
  | some v0 =>
    cases hv
    simp only [vehicle_ready, heartbeat_stale, hhb]
    cases ic <;> simp [hgt]

/-- C1: a snapshot failing any unsuppressed check makes
`is_ready(require_armable=true, override=false)` false (the gate equals
the conjunction of its checks); `emergency_override=true` behaves
exactly like erasing the battery telemetry and suppresses nothing else;
and a heartbeat age above `MAX_HEARTBEAT_AGE` fails the gate regardless
of the override. -/
theorem C1_readiness_gate (conn : Connection) (ra eo : Bool) :
    vehicle_ready conn ra eo = ready_checks conn ra eo ∧
    vehicle_ready conn ra true = vehicle_ready (erase_battery conn) ra false ∧
    (∀ v h, conn.vehicle = some v → v.last_heartbeat = some h →
      MAX_HEARTBEAT_AGE < h → vehicle_ready conn ra eo = false) := by
  refine ⟨vehicle_ready_eq_ready_checks conn ra eo, ?_, ?_⟩
  · rw [vehicle_ready_eq_ready_checks, vehicle_ready_eq_ready_checks]
    rcases conn with ⟨ic, vo⟩
    cases vo with
    | none => rfl
    | some v =>
      rcases v with ⟨hb, armable, gps, batt, sys, home, armed, alt⟩
      simp [ready_checks, erase_battery, heartbeat_stale, system_status_fails]
  · intro v h hv hhb hgt
    exact vehicle_ready_false_of_stale conn ra eo v h hv hhb hgt

/-- A concrete run of C1's hypothesis-bearing part: a snapshot whose
heartbeat is 6 s old (limit 5 s) fails the gate even with the
emergency override set. -/
theorem C1_readiness_gate_witness :
    vehicle_ready
      { is_connected := true,
        vehicle := some
          { last_heartbeat := some 6, is_armable := true, gps_0 := none,
            battery := none, system_status := none, home_location := none,
            armed := false, alt := 0 } } true true = false :=
  (C1_readiness_gate _ true true).2.2 _ 6 rfl rfl (by norm_num [MAX_HEARTBEAT_AGE])

/-- C10: a connected snapshot whose heartbeat, GPS and battery telemetry
are all absent passes the gate: every threshold check with missing
telemetry is skipped.  With `require_armable=false` this holds for any
armable/system-status report; with `require_armable=true` it holds for
an armable vehicle without a system-status attribute. -/
theorem C10_missing_telemetry_passes (eo armable armed : Bool)
    (sys : Option String) (home : Option HomeLocation) (alt : ℚ) :
    vehicle_ready
      { is_connected := true,
        vehicle := some
          { last_heartbeat := none, is_armable := armable, gps_0 := none,
            battery := none, system_status := sys, home_location := home,
            armed := armed, alt := alt } } false eo = true ∧
    vehicle_ready
      { is_connected := true,
        vehicle := some
          { last_heartbeat := none, is_armable := true, gps_0 := none,
            battery := none, system_status := none, home_location := home,
            armed := armed, alt := alt } } true eo = true := by
  constructor <;>
    simp [vehicle_ready, heartbeat_stale, system_status_fails]

/-- When no ledger entry is past the command timeout, the expiry pass of
`check_command_conflicts` leaves the ledger untouched. -/
theorem prune_expired_id (now : ℚ) (l : Ledger)
    (hfresh : ∀ p ∈ l.lastTime, now - p.2 ≤ COMMAND_TIMEOUT) :
    prune_expired now l = l := by
  rcases l with ⟨act, lt⟩
  have hnil : lt.filter (fun p => decide (now - p.2 > COMMAND_TIMEOUT)) = [] := by
    rw [List.filter_eq_nil_iff]
    intro p hp
    simpa using hfresh p hp
  simp only [prune_expired]
  rw [hnil]
  simp only [List.map_nil]
  congr 1
  · exact List.filter_eq_self.mpr (fun a _ => rfl)
  · exact List.filter_eq_self.mpr (fun p hp => by simpa using hfresh p hp)

/-- C3: while a flight-class command is active and unexpired, another
flight-class command is rejected with a conflict result and the ledger
is unchanged, while an emergency-class command is accepted and clears
every active-command entry. -/
theorem C3_command_ledger (l : Ledger) (now : ℚ) (f g e : String)
    (hf_mem : f ∈ flight_commands) (hf_act : f ∈ l.active)
    (hfresh : ∀ p ∈ l.lastTime, now - p.2 ≤ COMMAND_TIMEOUT)
    (hg : g ∈ flight_commands) (he : e ∈ critical_commands) :
    ((check_command_conflicts g now l).1 = false ∧
     (check_command_conflicts g now l).2.2 = l ∧
     execute_command_accepts g now l = false) ∧
    ((check_command_conflicts e now l).1 = true ∧
     (check_command_conflicts e now l).2.2.active = []) := by
  have hpr : prune_expired now l = l := prune_expired_id now l hfresh
  have hfc : flight_commands.contains f = true := by simpa using hf_mem
  have hne : (l.active.filter (fun c => flight_commands.contains c)).isEmpty = false := by
    have : f ∈ l.active.filter (fun c => flight_commands.contains c) :=
      List.mem_filter.mpr ⟨hf_act, hfc⟩
    cases hfilter : l.active.filter (fun c => flight_commands.contains c) with
    | nil => rw [hfilter] at this; cases this
    | cons a as => rfl
  have hgc : flight_commands.contains g = true := by simpa using hg
  have hef : flight_commands.contains e = false := by
    simp only [critical_commands, List.mem_cons, List.not_mem_nil, or_false] at he
    rcases he with he | he <;> subst he <;> decide
  have hec : critical_commands.contains e = true := by simpa using he
  constructor
  · unfold check_command_conflicts execute_command_accepts
    rw [hpr]
    simp only [check_command_conflicts, hpr, hgc, hne, Bool.not_false, Bool.and_self]
    simp
  · have hef' : e ∉ flight_commands := by simpa using hef
    unfold check_command_conflicts
    rw [hpr]
    simp [hef', he]

/-- A concrete run of C3: with `land` active 10 s ago (timeout 30 s),
`takeoff` is rejected and `emergency_land` clears the active entries. -/
theorem C3_command_ledger_witness :
    (check_command_conflicts "takeoff" 110 ⟨["land"], [("land", 100)]⟩).1 = false ∧
    (check_command_conflicts "emergency_land" 110 ⟨["land"], [("land", 100)]⟩).2.2.active = [] := by
  have h := C3_command_ledger ⟨["land"], [("land", 100)]⟩ 110 "land" "takeoff" "emergency_land"
    (by decide) (by decide)
    (by intro p hp
        simp only [List.mem_singleton] at hp
        subst hp
        norm_num [COMMAND_TIMEOUT])
    (by decide) (by decide)
  exact ⟨h.1.1, h.2.2⟩

/-- C4: with an absent or (0,0) home position, a requested RTL never
issues the RTL mode command; when the readiness gate passes it
substitutes Emergency-Land, and Emergency-Land itself (given a live
connection) performs a forced landing at the current position instead of
attempting RTL. -/
theorem C4_invalid_home (conn : Connection) (eo : Bool) (v : Vehicle)
    (hv : conn.vehicle = some v) (hhome : home_invalid v.home_location = true) :
    rtl_decision conn eo ≠ .issueRtl ∧
    (vehicle_ready conn false eo = true → rtl_decision conn eo = .substituteEmergencyLand) ∧
    (conn.is_connected = true → emergency_land_decision conn = .forcedLandHere) := by
  refine ⟨?_, ?_, ?_⟩
  · unfold rtl_decision
    cases hr : vehicle_ready conn false eo with
    | false => simp
    | true => simp [hv, hhome]
  · intro hr
    unfold rtl_decision
    simp [hr, hv, hhome]
  · intro hic
    unfold emergency_land_decision
    simp [hic, hv, hhome]

/-- A concrete run of C4: a ready, connected vehicle with no recorded
home gets Emergency-Land instead of RTL, and Emergency-Land force-lands
at the current position. -/
theorem C4_invalid_home_witness :
    rtl_decision
      { is_connected := true,
        vehicle := some
          { last_heartbeat := none, is_armable := true, gps_0 := none,
            battery := none, system_status := none, home_location := none,
            armed := true, alt := 10 } } false = .substituteEmergencyLand ∧
    emergency_land_decision
      { is_connected := true,
        vehicle := some
          { last_heartbeat := none, is_armable := true, gps_0 := none,
            battery := none, system_status := none, home_location := none,
            armed := true, alt := 10 } } = .forcedLandHere := by
  have h := C4_invalid_home
    { is_connected := true,
      vehicle := some
        { last_heartbeat := none, is_armable := true, gps_0 := none,
          battery := none, system_status := none, home_location := none,
          armed := true, alt := 10 } } false
    { last_heartbeat := none, is_armable := true, gps_0 := none,
      battery := none, system_status := none, home_location := none,
      armed := true, alt := 10 } rfl rfl
  exact ⟨h.2.1 rfl, h.2.2 rfl⟩

/-- C5 counterexample: invoked without the confirmation flag on a fully
connected, armed vehicle, `emergency_disarm` raises an exception
(`raise Exception(...)` in the source) instead of returning an ordinary
failure result, refuting the claim as stated. -/
theorem C5_no_confirm_counterexample :
    emergency_disarm_decision false
      { is_connected := true,
        vehicle := some
          { last_heartbeat := none, is_armable := true, gps_0 := none,
            battery := none, system_status := none, home_location := none,
            armed := true, alt := 1 } } = .raisedConfirmationError ∧
    ed_is_result_outcome
      (emergency_disarm_decision false
        { is_connected := true,
          vehicle := some
            { last_heartbeat := none, is_armable := true, gps_0 := none,
              battery := none, system_status := none, home_location := none,
              armed := true, alt := 1 } }) = false := ⟨rfl, rfl⟩

/-- C5 (amended): without the confirmation flag `emergency_disarm`
raises a confirmation exception before issuing any vehicle command; the
command handler wrapping it converts every outcome, exceptions included,
into an ordinary ok/error result; with confirmation and altitude above
2 m it substitutes Emergency-Land; at or below 2 m it cuts throttle and
disarms with the shortened 8 s timeout. -/
theorem C5_emergency_disarm (conn : Connection) (v : Vehicle) (landOk disarmOk : Bool)
    (hv : conn.vehicle = some v) (hic : conn.is_connected = true) (harm : v.armed = true) :
    emergency_disarm_decision false conn = .raisedConfirmationError ∧
    (handle_emergency_disarm_status conn landOk disarmOk = "ok" ∨
     handle_emergency_disarm_status conn landOk disarmOk = "error") ∧
    (2 < v.alt → emergency_disarm_decision true conn = .doEmergencyLand) ∧
    (v.alt ≤ 2 → emergency_disarm_decision true conn = .throttleCutDisarm 8) := by
  refine ⟨rfl, ?_, ?_, ?_⟩
  · unfold handle_emergency_disarm_status
    cases h : emergency_disarm_decision true conn <;>
      cases landOk <;> cases disarmOk <;> simp
  · intro hgt
    unfold emergency_disarm_decision
    simp [hic, hv, harm, hgt]
  · intro hle
    unfold emergency_disarm_decision
    simp [hic, hv, harm, not_lt.mpr hle]

/-- A concrete run of C5's altitude branches: at 5 m the confirmed
emergency disarm substitutes Emergency-Land; at 1 m it cuts throttle and
disarms with the 8 s timeout. -/
theorem C5_emergency_disarm_witness :
    emergency_disarm_decision true
      { is_connected := true,
        vehicle := some
          { last_heartbeat := none, is_armable := true, gps_0 := none,
            battery := none, system_status := none, home_location := none,
            armed := true, alt := 5 } } = .doEmergencyLand ∧
    emergency_disarm_decision true
      { is_connected := true,
        vehicle := some
          { last_heartbeat := none, is_armable := true, gps_0 := none,
            battery := none, system_status := none, home_location := none,
            armed := true, alt := 1 } } = .throttleCutDisarm 8 := by
  constructor
  · exact (C5_emergency_disarm _
      { last_heartbeat := none, is_armable := true, gps_0 := none,
        battery := none, system_status := none, home_location := none,
        armed := true, alt := 5 } true true rfl rfl rfl).2.2.1 (by norm_num)
  · exact (C5_emergency_disarm _
      { last_heartbeat := none, is_armable := true, gps_0 := none,
        battery := none, system_status := none, home_location := none,
        armed := true, alt := 1 } true true rfl rfl rfl).2.2.2 (by norm_num)

/-- C2 counterexample: a waypoint-manager battery-emergency prompt at
15% battery that receives no response resolves, at timeout, to LAND and
not to the claimed RTL default (the source defaults to RTL only above
`EMERGENCY_BATTERY_LEVEL` = 20%). -/
theorem C2_timeout_default_counterexample :
    (wm_prompt_resolve 15 none).1 = "LAND" ∧ ("LAND" : String) ≠ "RTL" := by
  refine ⟨?_, by decide⟩
  norm_num [wm_prompt_resolve, wm_timeout_default, EMERGENCY_BATTERY_LEVEL]

/-- C2 (amended): an unanswered battery-emergency prompt always resolves
to a definite outcome at timeout, never remaining pending.  The
controller protocol applies RTL and records the distinct
timeout_rtl/timeout_rtl_failed outcome; the waypoint-manager protocol
deletes the prompt and applies RTL when battery is above 20% and LAND
otherwise. -/
theorem C2_emergency_timeout (battery : ℚ) (landOk rtlOk : Bool) (uc : Option String) :
    (controller_emergency_outcome none landOk rtlOk =
       (if rtlOk then "timeout_rtl" else "timeout_rtl_failed")) ∧
    (controller_emergency_outcome none landOk rtlOk ≠ "rtl" ∧
     controller_emergency_outcome none landOk rtlOk ≠ "land" ∧
     controller_emergency_outcome none landOk rtlOk ≠ "rtl_failed" ∧
     controller_emergency_outcome none landOk rtlOk ≠ "land_failed") ∧
    (controller_emergency_outcome uc landOk rtlOk ∈
       (["land", "land_failed", "rtl", "rtl_failed",
         "timeout_rtl", "timeout_rtl_failed"] : List String)) ∧
    ((wm_prompt_resolve battery none).2 = true) ∧
    (EMERGENCY_BATTERY_LEVEL < battery → (wm_prompt_resolve battery none).1 = "RTL") ∧
    (battery ≤ EMERGENCY_BATTERY_LEVEL → (wm_prompt_resolve battery none).1 = "LAND") := by
  refine ⟨?_, ?_, ?_, rfl, ?_, ?_⟩
  · cases rtlOk <;> rfl
  · cases rtlOk <;> cases landOk <;> exact ⟨by decide, by decide, by decide, by decide⟩
  · unfold controller_emergency_outcome
    split_ifs <;> cases landOk <;> cases rtlOk <;> simp
  · intro hgt
    simp [wm_prompt_resolve, wm_timeout_default, hgt]
  · intro hle
    simp [wm_prompt_resolve, wm_timeout_default, not_lt.mpr hle]

/-- A concrete run of C2's battery-dependent timeout default: 25% gives
RTL, 15% gives LAND. -/
theorem C2_emergency_timeout_witness :
    (wm_prompt_resolve 25 none).1 = "RTL" ∧ (wm_prompt_resolve 15 none).1 = "LAND" := by
  constructor
  · exact (C2_emergency_timeout 25 true true none).2.2.2.2.1
      (by norm_num [EMERGENCY_BATTERY_LEVEL])
  · exact (C2_emergency_timeout 15 true true none).2.2.2.2.2
      (by norm_num [EMERGENCY_BATTERY_LEVEL])

/-- If the condition holds at a poll whose elapsed time is within the
timeout, the poll loop reports success (C9 helper). -/
theorem waitIter_true (check : ℕ → Bool) (timeout interval : ℚ)
    (hint : 0 < interval) :
    ∀ fuel n k, check k = true → n ≤ k → k < n + fuel →
      (k : ℚ) * interval ≤ timeout →
      waitIter check timeout interval fuel n = true := by
  intro fuel
  induction fuel with
  | zero =>
    intro n k _ h1 h2 _
    omega
  | succ m ih =>
    intro n k hk h1 h2 hkt
    unfold waitIter
    cases hc : check n with
    | true => simp
    | false =>
      have hnk : n < k := lt_of_le_of_ne h1 (by rintro rfl; rw [hc] at hk; cases hk)
      have hnt : ¬timeout < (n : ℚ) * interval := by
        push_neg
        calc (n : ℚ) * interval ≤ (k : ℚ) * interval := by
              have : (n : ℚ) ≤ (k : ℚ) := by exact_mod_cast le_of_lt hnk
              exact mul_le_mul_of_nonneg_right this (le_of_lt hint)
          _ ≤ timeout := hkt
      rw [if_neg (by simp [hc]), if_neg (by simp [hnt])]
      exact ih (n + 1) k hk hnk (by omega) hkt

/-- A condition that never holds makes the poll loop report failure once
the deadline test fires (C9 helper). -/
theorem waitIter_false (check : ℕ → Bool) (timeout interval : ℚ)
    (hnever : ∀ n, check n = false) :
    ∀ fuel n, waitIter check timeout interval fuel n = false := by
  intro fuel
  induction fuel with
  | zero => intro n; rfl
  | succ m ih =>
    intro n
    unfold waitIter
    simp only [hnever n, Bool.false_eq_true, if_false]
    by_cases ht : timeout < (n : ℚ) * interval
    · simp [ht]
    · simp [ht, ih (n + 1)]

/-- C9: the bounded wait is a total function (it always terminates with
a boolean, never an exception): it returns true whenever the condition
holds at a poll inside the deadline, returns false when the condition
never holds (deadline expiry as an ordinary failure), and only reports
success when the condition actually held at some poll. -/
theorem C9_bounded_wait (check : ℕ → Bool) (timeout interval : ℚ)
    (hint : 0 < interval) :
    ((∃ k, check k = true ∧ (k : ℚ) * interval ≤ timeout) →
      wait_for_condition check timeout interval = true) ∧
    ((∀ n, check n = false) → wait_for_condition check timeout interval = false) ∧
    (wait_for_condition check timeout interval = true → ∃ k, check k = true) := by
  refine ⟨?_, ?_, ?_⟩
  · rintro ⟨k, hk, hkt⟩
    have hkq : (k : ℚ) ≤ timeout / interval := (le_div_iff₀ hint).mpr hkt
    have hkc : ((k : ℤ) : ℚ) ≤ (⌈timeout / interval⌉ : ℚ) := by
      push_cast
      exact le_trans hkq (Int.le_ceil _)
    have hkz : (k : ℤ) ≤ ⌈timeout / interval⌉ := by exact_mod_cast hkc
    have hcnn : 0 ≤ ⌈timeout / interval⌉ := le_trans (Int.ofNat_nonneg k) hkz
    have hkn : k ≤ (⌈timeout / interval⌉).toNat := (Int.le_toNat hcnn).mpr hkz
    exact waitIter_true check timeout interval hint _ 0 k hk (Nat.zero_le k)
      (by omega) hkt
  · intro hnever
    exact waitIter_false check timeout interval hnever _ 0
  · intro htrue
    by_contra hno
    push_neg at hno
    have hnever : ∀ n, check n = false := by
      intro n
      cases hn : check n with
      | false => rfl
      | true => exact absurd hn (hno n)
    unfold wait_for_condition at htrue
    rw [waitIter_false check timeout interval hnever _ 0] at htrue
    cases htrue

/-- A concrete run of C9: a condition first true at the second poll
succeeds, and a never-true condition times out with false. -/
theorem C9_bounded_wait_witness :
    wait_for_condition (fun n => decide (n = 1)) 10 1 = true ∧
    wait_for_condition (fun _ => false) 10 1 = false := by
  constructor
  · exact (C9_bounded_wait (fun n => decide (n = 1)) 10 1 (by norm_num)).1
      ⟨1, by decide, by norm_num⟩
  · exact (C9_bounded_wait (fun _ => false) 10 1 (by norm_num)).2.1 (fun n => rfl)

/-- The haversine intermediate is symmetric in its two coordinates. -/
theorem haversine_a_symm (lat1 lon1 lat2 lon2 : ℝ) :
    haversine_a lat2 lon2 lat1 lon1 = haversine_a lat1 lon1 lat2 lon2 := by
  unfold haversine_a radians
  have e1 : (lat1 - lat2) * (Real.pi / 180) / 2 =
      -((lat2 - lat1) * (Real.pi / 180) / 2) := by ring
  have e2 : (lon1 - lon2) * (Real.pi / 180) / 2 =
      -((lon2 - lon1) * (Real.pi / 180) / 2) := by ring
  rw [e1, e2, Real.sin_neg, Real.sin_neg]
  ring

/-- The haversine intermediate vanishes on identical coordinates. -/
theorem haversine_a_self (lat lon : ℝ) : haversine_a lat lon lat lon = 0 := by
  unfold haversine_a radians
  simp

/-- The unguarded haversine of autonomous_waypoint_mission.py returns 0
on identical waypoints (C8 helper: the `atan2(0, 1)` case needs no
division guard). -/
theorem awm_calculate_distance_self (wp : ℝ × ℝ × ℝ) :
    awm_calculate_distance wp wp = 0 := by
  unfold awm_calculate_distance
  rw [haversine_a_self]
  norm_num [atan2, Real.arctan_zero]

/-- The unguarded haversine is symmetric (C8 helper). -/
theorem awm_calculate_distance_symm (p q : ℝ × ℝ × ℝ) :
    awm_calculate_distance p q = awm_calculate_distance q p := by
  unfold awm_calculate_distance
  rw [haversine_a_symm p.1 p.2.1 q.1 q.2.1]

/-- The guarded haversine of navigation_utils.py is symmetric, failure
branches included (C8 helper). -/
theorem nav_calculate_distance_symm (p q : ℝ × ℝ) :
    nav_calculate_distance p q = nav_calculate_distance q p := by
  classical
  simp only [nav_calculate_distance]
  by_cases h1 : ¬valid_coordinates p.1 p.2 ∨ ¬valid_coordinates q.1 q.2
  · have h1' : ¬valid_coordinates q.1 q.2 ∨ ¬valid_coordinates p.1 p.2 := or_comm.mp h1
    rw [if_pos h1, if_pos h1']
  · have h1' : ¬(¬valid_coordinates q.1 q.2 ∨ ¬valid_coordinates p.1 p.2) :=
      fun hc => h1 (or_comm.mp hc)
    rw [if_neg h1, if_neg h1']
    by_cases h2 : p.1 = q.1 ∧ p.2 = q.2
    · have h2' : q.1 = p.1 ∧ q.2 = p.2 := ⟨h2.1.symm, h2.2.symm⟩
      rw [if_pos h2, if_pos h2']
    · have h2' : ¬(q.1 = p.1 ∧ q.2 = p.2) := fun hc => h2 ⟨hc.1.symm, hc.2.symm⟩
      rw [if_neg h2, if_neg h2', haversine_a_symm p.1 p.2 q.1 q.2]

/-- C8: the haversine distance from a valid point to itself is 0 (by
total, division-free evaluation in both source implementations), and
both implementations are symmetric in their two arguments. -/
theorem C8_haversine (p q : ℝ × ℝ) (wp : ℝ × ℝ × ℝ)
    (h : valid_coordinates p.1 p.2) :
    nav_calculate_distance p p = some 0 ∧
    nav_calculate_distance p q = nav_calculate_distance q p ∧
    awm_calculate_distance wp wp = 0 ∧
    (∀ w1 w2 : ℝ × ℝ × ℝ, awm_calculate_distance w1 w2 = awm_calculate_distance w2 w1) := by
  refine ⟨?_, nav_calculate_distance_symm p q, awm_calculate_distance_self wp,
    fun w1 w2 => awm_calculate_distance_symm w1 w2⟩
  simp only [nav_calculate_distance]
  rw [if_neg (by simp [h])]
  simp

/-- A concrete run of C8: the self-distance of the valid point
(10, 20) is 0 in the guarded implementation. -/
theorem C8_haversine_witness :
    nav_calculate_distance ((10 : ℝ), (20 : ℝ)) ((10 : ℝ), (20 : ℝ)) = some 0 :=
  (C8_haversine (10, 20) (0, 0) (0, 0, 0) (by norm_num [valid_coordinates])).1

/-- C7: waypoint processing assigns the default altitude (20 m) to a
missing or non-positive altitude, clamps every result into the
configured [0.5 m, 30 m] range, and in particular maps altitude 0 to 20
and altitude 500 to the 30 m maximum; a waypoint kept by the
per-waypoint pass carries exactly this processed altitude. -/
theorem C7_altitude_processing (a : ℝ) (o : Option ℝ) (lat lon : ℝ) (w : ℝ × ℝ × ℝ) :
    assign_altitude none = 20 ∧
    (a ≤ 0 → assign_altitude (some a) = 20) ∧
    (MIN_ALTITUDE_R ≤ assign_altitude o ∧ assign_altitude o ≤ MAX_ALTITUDE_R) ∧
    assign_altitude (some 0) = 20 ∧
    assign_altitude (some 500) = 30 ∧
    (process_one (lat, lon, o) = some w → w = (lat, lon, assign_altitude o)) := by
  refine ⟨?_, ?_, ?_, ?_, ?_, ?_⟩
  · norm_num [assign_altitude, default_altitude, MIN_ALTITUDE_R, MAX_ALTITUDE_R]
  · intro ha
    norm_num [assign_altitude, default_altitude, MIN_ALTITUDE_R, MAX_ALTITUDE_R, ha]
  · cases o with
    | none =>
      norm_num [assign_altitude, default_altitude, MIN_ALTITUDE_R, MAX_ALTITUDE_R]
    | some b =>
      simp only [assign_altitude, default_altitude, MIN_ALTITUDE_R, MAX_ALTITUDE_R]
      set c : ℝ := if b ≤ 0 then (20 : ℝ) else b with hc
      by_cases hlt : c < 1/2
      · rw [if_pos hlt]
        norm_num
      · rw [if_neg hlt]
        by_cases hgt : (30 : ℝ) < c
        · rw [if_pos hgt]
          norm_num
        · rw [if_neg hgt]
          exact ⟨le_of_not_lt hlt, le_of_not_lt hgt⟩
  · norm_num [assign_altitude, default_altitude, MIN_ALTITUDE_R, MAX_ALTITUDE_R]
  · norm_num [assign_altitude, default_altitude, MIN_ALTITUDE_R, MAX_ALTITUDE_R]
  · intro hp
    unfold process_one at hp
    split_ifs at hp with hc
    injection hp with hp
    exact hp.symm

/-- A concrete run of C7's conditional part: altitude −5 is replaced by
the 20 m default. -/
theorem C7_altitude_processing_witness :
    assign_altitude (some (-5 : ℝ)) = 20 :=
  (C7_altitude_processing (-5) none 0 0 (0, 0, 0)).2.1 (by norm_num)

/-- The merge pass only drops waypoints: its output is a sublist of its
input, in the input order (C6 helper). -/
theorem merge_loop_sublist (last : ℝ × ℝ × ℝ) (ws : List (ℝ × ℝ × ℝ)) :
    List.Sublist (merge_loop last ws) ws := by
  induction ws generalizing last with
  | nil => exact List.Sublist.refl []
  | cons w ws ih =>
    unfold merge_loop
    split_ifs with h
    · exact (ih last).trans (List.sublist_cons_self w ws)
    · exact (ih w).cons₂ w

/-- Consecutive waypoints kept by the merge pass are never closer than
the minimum separation (C6 helper). -/
theorem merge_loop_chain (last : ℝ × ℝ × ℝ) (ws : List (ℝ × ℝ × ℝ)) :
    List.Chain (fun a b => ¬awm_calculate_distance a b < min_waypoint_distance)
      last (merge_loop last ws) := by
  induction ws generalizing last with
  | nil => exact List.Chain.nil
  | cons w ws ih =>
    unfold merge_loop
    split_ifs with h
    · exact ih last
    · exact List.Chain.cons h (ih w)

/-- The two spec waypoints (0,0) and (0, 0.0000095) are about 1.05 m
apart, below the 2 m minimum separation (C6 helper: the exact haversine
value is (121049/360000)·π). -/
theorem tiny_distance_lt_two :
    awm_calculate_distance ((0 : ℝ), (0 : ℝ), (20 : ℝ))
      ((0 : ℝ), 19 / 2000000, (20 : ℝ)) < 2 := by
  have hpi : Real.pi < 3.15 := Real.pi_lt_d2
  have hpi0 : 0 < Real.pi := Real.pi_pos
  have ht0 : (0 : ℝ) ≤ 19 / 2000000 * (Real.pi / 180) / 2 := by positivity
  have htpi2 : 19 / 2000000 * (Real.pi / 180) / 2 < Real.pi / 2 := by nlinarith
  have hsin0 : 0 ≤ Real.sin (19 / 2000000 * (Real.pi / 180) / 2) :=
    Real.sin_nonneg_of_nonneg_of_le_pi ht0 (by nlinarith)
  have hcos0 : 0 < Real.cos (19 / 2000000 * (Real.pi / 180) / 2) :=
    Real.cos_pos_of_mem_Ioo ⟨by nlinarith, htpi2⟩
  have ha : haversine_a 0 0 0 (19 / 2000000) =
      Real.sin (19 / 2000000 * (Real.pi / 180) / 2) ^ 2 := by
    unfold haversine_a radians
    norm_num [Real.sin_zero, Real.cos_zero]
  have key : awm_calculate_distance ((0 : ℝ), (0 : ℝ), (20 : ℝ))
      ((0 : ℝ), 19 / 2000000, (20 : ℝ)) =
      6371000 * (2 * (19 / 2000000 * (Real.pi / 180) / 2)) := by
    show EARTH_RADIUS_M * (2 * atan2 (Real.sqrt (haversine_a 0 0 0 (19 / 2000000)))
      (Real.sqrt (1 - haversine_a 0 0 0 (19 / 2000000)))) = _
    rw [ha, Real.sqrt_sq hsin0]
    rw [show (1 : ℝ) - Real.sin (19 / 2000000 * (Real.pi / 180) / 2) ^ 2 =
        Real.cos (19 / 2000000 * (Real.pi / 180) / 2) ^ 2 from by
      nlinarith [Real.sin_sq_add_cos_sq (19 / 2000000 * (Real.pi / 180) / 2)]]
    rw [Real.sqrt_sq (le_of_lt hcos0)]
    unfold atan2
    rw [if_pos hcos0, ← Real.tan_eq_sin_div_cos,
      Real.arctan_tan (by nlinarith) htpi2]
    norm_num [EARTH_RADIUS_M]
  rw [key]
  have hrw : (6371000 : ℝ) * (2 * (19 / 2000000 * (Real.pi / 180) / 2)) =
      121049 / 360000 * Real.pi := by ring
  rw [hrw]
  linarith

/-- The per-waypoint pass keeps both spec waypoints unchanged (valid
coordinates, altitude 20 inside the clamp range) (C6 helper). -/
theorem process_waypoints_concrete :
    process_waypoints
        [((0 : ℝ), (0 : ℝ), some (20 : ℝ)), ((0 : ℝ), 19 / 2000000, some (20 : ℝ))] =
      [((0 : ℝ), (0 : ℝ), (20 : ℝ)), ((0 : ℝ), 19 / 2000000, (20 : ℝ))] := by
  unfold process_waypoints
  norm_num [List.filterMap_cons, process_one, assign_altitude, default_altitude,
    MIN_ALTITUDE_R, MAX_ALTITUDE_R]

/-- C6: the full pipeline on the spec's two waypoints (0,0,20) and
(0, 0.0000095, 20) yields exactly one processed waypoint, and in
general the merge pass preserves the order of the kept waypoints (its
output is a sublist of its input) while consecutive kept waypoints are
at least the minimum separation apart. -/
theorem C6_waypoint_merge :
    validate_and_process_waypoints
        [((0 : ℝ), (0 : ℝ), some (20 : ℝ)), ((0 : ℝ), 19 / 2000000, some (20 : ℝ))] =
      [((0 : ℝ), (0 : ℝ), (20 : ℝ))] ∧
    (∀ l : List (ℝ × ℝ × ℝ), List.Sublist (merge_waypoints l) l) ∧
    (∀ (w : ℝ × ℝ × ℝ) (ws : List (ℝ × ℝ × ℝ)),
      List.Chain (fun a b => ¬awm_calculate_distance a b < min_waypoint_distance)
        w (merge_loop w ws)) := by
  refine ⟨?_, ?_, fun w ws => merge_loop_chain w ws⟩
  · unfold validate_and_process_waypoints
    rw [process_waypoints_concrete]
    simp only [merge_waypoints, merge_loop]
    rw [if_pos (by simpa [min_waypoint_distance] using tiny_distance_lt_two)]
  · intro l
    cases l with
    | nil => exact List.Sublist.refl []
    | cons w ws => exact (merge_loop_sublist w ws).cons₂ w

end Drone
